import Mathlib

/-!
Verification of the LLM completion orchestration layer of gpt-researcher
(src/gpt_researcher/utils/llm.py): a shallow embedding of
create_chat_completion and construct_subtopics, followed by theorems about
the claims of the specification.

Embedding conventions:
* Python dicts are embedded as functions String → Option KwVal; insertion
  order is never observed by the source, only key lookup and overwrite.
* Python floats that are only stored and forwarded (temperature values)
  are carried as exact rationals; the source performs no arithmetic on them.
* Fallible Python calls (provider invocation, prompt composition, chain
  invocation) are embedded as Except-valued parameters: an exception in the
  source corresponds to an error value propagating.
* External collaborators that are not part of the shown source are
  abstracted as function parameters, following the interface contracts of
  the specification (cost estimator, provider capability, schema parser).
-/

set_option autoImplicit false

/-- A value stored in a keyword-argument dictionary: strings, numbers
(rationals standing for Python floats/ints that are only stored, never
computed with), integers, or Python None. -/
inductive KwVal where
  | vStr (s : String)
  | vNum (q : ℚ)
  | vInt (n : Int)
  | vNone
  deriving DecidableEq

/-- A Python dict with string keys, embedded by its lookup function. -/
def Dict : Type := String → Option KwVal

/-- The empty dict. -/
def dictEmpty : Dict := fun _ => none

/-- Python dict item assignment d[k] = v (also the effect of a later key in
a dict display). -/
def dictSet (d : Dict) (k : String) (v : KwVal) : Dict :=
  fun q => if q = k then some v else d q

/-- Python dict merge via unpacking: in a display such as
d = (entries of lo, then **hi), entries of hi win on key clashes. -/
def dictUnion (lo hi : Dict) : Dict :=
  fun k => match hi k with
    | some v => some v
    | none => lo k

/-- Decides whether pat occurs at the head of a character list. -/
def isSubAt : List Char → List Char → Bool
  | [], _ => true
  | _ :: _, [] => false
  | c :: cs, d :: ds => c == d && isSubAt cs ds

/-- Decides whether pat occurs anywhere in a character list. -/
def hasSub (pat : List Char) : List Char → Bool
  | [] => isSubAt pat []
  | c :: tl => isSubAt pat (c :: tl) || hasSub pat tl

/-- Python substring containment, pat in s. -/
def strContains (s pat : String) : Bool :=
  hasSub pat.toList s.toList

/-- The model-family classification of llm.py line 60 and line 113:
a model is in the reasoning family when its identifier contains the
substring o3 or the substring o1. -/
def reasoningModel (model : String) : Bool :=
  strContains model "o3" || strContains model "o1"

/-- Embeds an optional float value stored into a kwargs dict. -/
def optNum : Option ℚ → KwVal
  | some q => KwVal.vNum q
  | none => KwVal.vNone

/-- Embeds an optional int value stored into a kwargs dict. -/
def optInt : Option Int → KwVal
  | some n => KwVal.vInt n
  | none => KwVal.vNone

/-- Embeds an optional string value stored into a kwargs dict. -/
def optStr : Option String → KwVal
  | some s => KwVal.vStr s
  | none => KwVal.vNone

/-- The request shaping of llm.py lines 55-64 (and, with the config's
values, lines 107-117): start from a dict holding the model identifier,
merge the caller-supplied extra parameters on top of it, then write either
reasoning_effort (reasoning family) or temperature and max_tokens (all
other models). -/
def buildKwargs (model : String) (temperature : Option ℚ) (max_tokens : Option Int)
    (reasoning_effort : Option String) (llm_kwargs : Option Dict) : Dict :=
  let base := dictUnion (dictSet dictEmpty "model" (KwVal.vStr model))
    (llm_kwargs.getD dictEmpty)
  if reasoningModel model then
    dictSet base "reasoning_effort" (optStr reasoning_effort)
  else
    dictSet (dictSet base "temperature" (optNum temperature)) "max_tokens" (optInt max_tokens)

/-- The ways create_chat_completion can fail: the two ValueError
validations of lines 48-52, a raw exception raised by
provider.get_chat_response propagating out of the loop body (line 70), and
the RuntimeError of line 81 after the loop exhausts its iterations. -/
inductive CCError where
  | validation (msg : String)
  | providerFailure (e : String)
  | runtimeUnavailable (providerId : Option String)
  deriving DecidableEq

/-- The observable outcome of one create_chat_completion call: the returned
string or the raised error, the arguments passed to cost_callback in call
order, the number of provider.get_chat_response invocations, and the
kwargs dict passed to get_llm (none when validation failed before the
dict was built). -/
structure CCOutcome where
  result : Except CCError String
  costLog : List ℚ
  providerCalls : Nat
  shapedKwargs : Option Dict

/-- The attempt loop of llm.py lines 69-81, with the remaining iteration
count as fuel. Every path through the body leaves the function — the
return at line 78 or the provider exception of line 70 propagating — so
no iteration beyond the first ever runs, and the fuel-zero case embeds the
unreachable code after the loop (lines 80-81: the RuntimeError naming the
provider). -/
def ccAttemptLoop (estimate : String → String → ℚ) (providerResponse : Except String String)
    (messagesStr : String) (llm_provider : Option String) (cost_callback : Bool)
    (kwargs : Dict) : Nat → CCOutcome
  | 0 => ⟨Except.error (CCError.runtimeUnavailable llm_provider), [], 0, some kwargs⟩
  | Nat.succ _ =>
    match providerResponse with
    | Except.error e => ⟨Except.error (CCError.providerFailure e), [], 1, some kwargs⟩
    | Except.ok r =>
      ⟨Except.ok r, if cost_callback then [estimate messagesStr r] else [], 1, some kwargs⟩

/-- Shallow embedding of create_chat_completion (llm.py lines 22-81).
Parameters not in the Python signature abstract external collaborators:
estimate is the cost estimator applied to (str(messages), response)
— modelled from the spec: estimate_llm_cost lives in utils/costs.py, not
shown; the spec describes it as a pure deterministic function of the two
texts — and providerResponse is the behaviour of the resolved provider's
get_chat_response (the provider capability of the spec), an Except value
standing for its returned text or raised exception. messagesStr stands for
str(messages). Python defaults: temperature 0.4, max_tokens 4000,
reasoning_effort low, cost_callback absent. -/
def create_chat_completion (estimate : String → String → ℚ)
    (providerResponse : Except String String) (messagesStr : String)
    (model : Option String) (temperature : Option ℚ) (max_tokens : Option Int)
    (llm_provider : Option String) (llm_kwargs : Option Dict)
    (cost_callback : Bool) (reasoning_effort : Option String) : CCOutcome :=
  match model with
  | none => ⟨Except.error (CCError.validation "Model cannot be None"), [], 0, none⟩
  | some m =>
    match max_tokens with
    | some mt =>
      if mt > 16001 then
        ⟨Except.error (CCError.validation
          ("Max tokens cannot be more than 16,000, but got " ++ toString mt)), [], 0, none⟩
      else
        ccAttemptLoop estimate providerResponse messagesStr llm_provider cost_callback
          (buildKwargs m temperature max_tokens reasoning_effort llm_kwargs) 10
    | none =>
      ccAttemptLoop estimate providerResponse messagesStr llm_provider cost_callback
        (buildKwargs m temperature max_tokens reasoning_effort llm_kwargs) 10

/-- Modelled from the spec: a Subtopic is a task-defined structured record
whose schema (the Subtopics pydantic model of utils/validators.py, not
shown) is supplied externally; only its identity matters here. -/
structure Subtopic where
  task : String
  deriving DecidableEq

/-- The input dict passed to chain.invoke at llm.py lines 125-130. -/
structure ChainInputs where
  task : String
  data : String
  subtopics : List Subtopic
  max_subtopics : Nat
  deriving DecidableEq

/-- The fields of the configuration object read by construct_subtopics
(llm.py lines 107-129). -/
structure SubtopicsConfig where
  smart_llm_model : String
  smart_llm_provider : Option String
  llm_kwargs : Option Dict
  temperature : ℚ
  smart_token_limit : Int
  max_subtopics : Nat

/-- The kwargs shaping of llm.py lines 107-117: identical in structure to
the shaping in create_chat_completion, with the config's smart model,
temperature and token limit, and the reasoning effort fixed to high. -/
def subtopicsKwargs (config : SubtopicsConfig) : Dict :=
  buildKwargs config.smart_llm_model (some config.temperature)
    (some config.smart_token_limit) (some "high") config.llm_kwargs

/-- The try block of construct_subtopics (llm.py lines 97-132), as the
sequence of its fallible steps: promptCompose covers the parser and
PromptTemplate construction (lines 98-105), resolveProvider the get_llm
call on the shaped kwargs (line 119), and chainInvoke the composed
prompt-model-parser chain applied to the input dict (lines 123-130) — per
the spec these externals either return a value or raise, and an exception
at any step aborts the block. -/
def subtopicsBody (promptCompose : Except String Unit)
    (resolveProvider : Dict → Except String Unit)
    (chainInvoke : ChainInputs → Except String (List Subtopic))
    (task : String) (data : String) (config : SubtopicsConfig)
    (subtopics : List Subtopic) : Except String (List Subtopic) :=
  match promptCompose with
  | Except.error e => Except.error e
  | Except.ok _ =>
    match resolveProvider (subtopicsKwargs config) with
    | Except.error e => Except.error e
    | Except.ok _ => chainInvoke ⟨task, data, subtopics, config.max_subtopics⟩

/-- Shallow embedding of construct_subtopics (llm.py lines 84-136): run the
try block; on success return its output (line 132), on any exception run
the except branch (lines 134-136), which returns the subtopics argument.

The result is a pair: the first component is the returned list, the second
the contents of the caller's subtopics list object after the call. The
source only reads that list (as a chain input at line 128 and as the
fallback return at line 136) and never applies a mutating operation to it,
so the final contents equal the initial contents. The function is total:
the except branch converts every failure into a normal return, so no
error reaches the caller. -/
def construct_subtopics (promptCompose : Except String Unit)
    (resolveProvider : Dict → Except String Unit)
    (chainInvoke : ChainInputs → Except String (List Subtopic))
    (task : String) (data : String) (config : SubtopicsConfig)
    (subtopics : List Subtopic) : List Subtopic × List Subtopic :=
  match subtopicsBody promptCompose resolveProvider chainInvoke task data config subtopics with
  | Except.ok output => (output, subtopics)
  | Except.error _ => (subtopics, subtopics)

/-! ## Helper lemmas -/

/-- Characterisation of the fallback path shared by the graceful-degradation
claims: whenever any step of the try block fails, the try block as a whole
fails. -/
theorem subtopicsBody_error_of_step (promptCompose : Except String Unit)
    (resolveProvider : Dict → Except String Unit)
    (chainInvoke : ChainInputs → Except String (List Subtopic))
    (task : String) (data : String) (config : SubtopicsConfig)
    (subtopics : List Subtopic)
    (h : (∃ e, promptCompose = Except.error e)
      ∨ (∃ e, resolveProvider (subtopicsKwargs config) = Except.error e)
      ∨ (∃ e, chainInvoke ⟨task, data, subtopics, config.max_subtopics⟩ = Except.error e)) :
    ∃ e, subtopicsBody promptCompose resolveProvider chainInvoke task data config subtopics
      = Except.error e := by
  cases hpc : promptCompose with
  | error e => exact ⟨e, by simp [subtopicsBody]⟩
  | ok u =>
    cases hrp : resolveProvider (subtopicsKwargs config) with
    | error e => exact ⟨e, by simp [subtopicsBody, hrp]⟩
    | ok v =>
      cases hci : chainInvoke ⟨task, data, subtopics, config.max_subtopics⟩ with
      | error e => exact ⟨e, by simp [subtopicsBody, hrp, hci]⟩
      | ok out =>
        exfalso
        rcases h with ⟨e, he⟩ | ⟨e, he⟩ | ⟨e, he⟩
        · rw [hpc] at he; exact Except.noConfusion he
        · rw [hrp] at he; exact Except.noConfusion he
        · rw [hci] at he; exact Except.noConfusion he

/-- The second component of construct_subtopics — the contents of the
caller's list after the call — always equals the list passed in. -/
theorem construct_subtopics_snd (promptCompose : Except String Unit)
    (resolveProvider : Dict → Except String Unit)
    (chainInvoke : ChainInputs → Except String (List Subtopic))
    (task : String) (data : String) (config : SubtopicsConfig)
    (subtopics : List Subtopic) :
    (construct_subtopics promptCompose resolveProvider chainInvoke task data config
      subtopics).2 = subtopics := by
  unfold construct_subtopics
  split <;> rfl

/-! ## Claims -/

/-- Claim C1 (code bug): the source's guard at llm.py line 50 is
max_tokens > 16001, so a request with max_tokens = 16001 — above the
16000 bound stated by the claim and by the code's own error message —
passes validation and reaches the provider (one invocation), while
16002 is the first value that is rejected. -/
theorem c1_max_tokens_off_by_one :
    (create_chat_completion (fun _ _ => 0) (Except.ok "hello") "m" (some "gpt-4") (some 0.4)
      (some 16001) (some "openai") none false (some "low")).result = Except.ok "hello"
    ∧ (create_chat_completion (fun _ _ => 0) (Except.ok "hello") "m" (some "gpt-4") (some 0.4)
      (some 16001) (some "openai") none false (some "low")).providerCalls = 1
    ∧ (create_chat_completion (fun _ _ => 0) (Except.ok "hello") "m" (some "gpt-4") (some 0.4)
      (some 16002) (some "openai") none false (some "low")).result
        = Except.error (CCError.validation
            ("Max tokens cannot be more than 16,000, but got " ++ toString (16002 : Int)))
    ∧ (16001 : Int) > 16000 :=
  ⟨rfl, rfl, rfl, by decide⟩

/-- Claim C2 (code bug): every path through the body of the 10-attempt
loop leaves create_chat_completion on its first iteration, so a provider
whose get_chat_response always raises makes the call fail after exactly
one invocation with the raw provider error — the RuntimeError naming the
provider after the loop (llm.py line 81) is unreachable, and no
exhausting of 10 attempts ever happens. -/
theorem c2_single_attempt_raw_error :
    (create_chat_completion (fun _ _ => 0) (Except.error "boom") "m" (some "gpt-4") (some 0.4)
      (some 4000) (some "openai") none true (some "low")).result
      = Except.error (CCError.providerFailure "boom")
    ∧ (create_chat_completion (fun _ _ => 0) (Except.error "boom") "m" (some "gpt-4") (some 0.4)
      (some 4000) (some "openai") none true (some "low")).providerCalls = 1
    ∧ (create_chat_completion (fun _ _ => 0) (Except.error "boom") "m" (some "gpt-4") (some 0.4)
      (some 4000) (some "openai") none true (some "low")).result
      ≠ Except.error (CCError.runtimeUnavailable (some "openai")) :=
  ⟨rfl, rfl, fun h => CCError.noConfusion (Except.error.inj h)⟩

/-- Claim C8, counterexample: a request whose model identifier is the
empty string is not rejected — validation at llm.py line 48 only checks
for None, so the call proceeds and invokes the provider. -/
theorem c8_counterexample_empty_model :
    (create_chat_completion (fun _ _ => 0) (Except.ok "hi") "m" (some "") (some 0.4)
      (some 4000) (some "p") none false (some "low")).result = Except.ok "hi"
    ∧ (create_chat_completion (fun _ _ => 0) (Except.ok "hi") "m" (some "") (some 0.4)
      (some 4000) (some "p") none false (some "low")).providerCalls = 1 :=
  ⟨rfl, rfl⟩

/-- Claim C8 as amended: create_chat_completion fails with the
ValidationError exactly when the model identifier is absent (None), and
in that case no provider invocation occurs; an empty-string identifier
is not caught by this validation. -/
theorem c8_model_none_validation (est : String → String → ℚ)
    (pr : Except String String) (msgs : String) (temp : Option ℚ) (mt : Option Int)
    (lp : Option String) (lk : Option Dict) (cb : Bool) (re : Option String) :
    (create_chat_completion est pr msgs none temp mt lp lk cb re).result
      = Except.error (CCError.validation "Model cannot be None")
    ∧ (create_chat_completion est pr msgs none temp mt lp lk cb re).providerCalls = 0 :=
  ⟨rfl, rfl⟩

/-- Claim C3, counterexample: in the source the caller's extra parameters
are unpacked after the model entry and before the shaping writes
(llm.py lines 55-64), so a caller-supplied model key does override the
model identifier, while a caller-supplied temperature on a non-reasoning
model is overwritten by the shaped default 0.4 — the exact opposite of
the claimed precedence on both counts. The last conjunct ties the dict to
the one create_chat_completion hands to get_llm. -/
theorem c3_counterexample_merge_precedence :
    (buildKwargs "gpt-4" (some 0.4) (some 4000) (some "low")
      (some (dictSet (dictSet dictEmpty "temperature" (KwVal.vNum 0.9))
        "model" (KwVal.vStr "other-model")))) "model" = some (KwVal.vStr "other-model")
    ∧ (buildKwargs "gpt-4" (some 0.4) (some 4000) (some "low")
      (some (dictSet (dictSet dictEmpty "temperature" (KwVal.vNum 0.9))
        "model" (KwVal.vStr "other-model")))) "temperature" = some (KwVal.vNum 0.4)
    ∧ (create_chat_completion (fun _ _ => 0) (Except.ok "hi") "m" (some "gpt-4") (some 0.4)
      (some 4000) (some "p")
      (some (dictSet (dictSet dictEmpty "temperature" (KwVal.vNum 0.9))
        "model" (KwVal.vStr "other-model"))) false (some "low")).shapedKwargs
      = some (buildKwargs "gpt-4" (some 0.4) (some 4000) (some "low")
        (some (dictSet (dictSet dictEmpty "temperature" (KwVal.vNum 0.9))
          "model" (KwVal.vStr "other-model")))) :=
  ⟨rfl, rfl, rfl⟩

/-- Claim C3 as amended: the extra-parameter merge of llm.py lines 55-58
places caller values above the initial model entry — so a caller key named
model replaces the model identifier — and the shaping writes of lines
60-64 come last, overriding any caller value for reasoning_effort, or for
temperature and max_tokens, on the respective branch; for every other key
the caller's value survives into the final parameters. -/
theorem c3_amended_merge_order (model : String) (temp : Option ℚ) (mt : Option Int)
    (re : Option String) (lk : Option Dict) :
    (∀ v, (lk.getD dictEmpty) "model" = some v →
      (buildKwargs model temp mt re lk) "model" = some v)
    ∧ (reasoningModel model = true →
      (buildKwargs model temp mt re lk) "reasoning_effort" = some (optStr re))
    ∧ (reasoningModel model = false →
      (buildKwargs model temp mt re lk) "temperature" = some (optNum temp)
      ∧ (buildKwargs model temp mt re lk) "max_tokens" = some (optInt mt))
    ∧ (∀ k v, k ≠ "model" → k ≠ "temperature" → k ≠ "max_tokens" → k ≠ "reasoning_effort" →
      (lk.getD dictEmpty) k = some v → (buildKwargs model temp mt re lk) k = some v) := by
  refine ⟨?_, ?_, ?_, ?_⟩
  · intro v hv
    by_cases hr : reasoningModel model <;>
      simp [buildKwargs, hr, dictSet, dictUnion, hv]
  · intro hr
    simp [buildKwargs, hr, dictSet]
  · intro hr
    simp [buildKwargs, hr, dictSet]
  · intro k v hk1 hk2 hk3 hk4 hv
    by_cases hr : reasoningModel model <;>
      simp [buildKwargs, hr, dictSet, dictUnion, hk1, hk2, hk3, hk4, hv]

/-- Witness for the amended C3 at a concrete input: a caller extra
parameter named model overrides the identifier gpt-4. -/
theorem c3_amended_merge_order_witness :
    (buildKwargs "gpt-4" (some 0.4) (some 4000) (some "low")
      (some (dictSet dictEmpty "model" (KwVal.vStr "m2")))) "model"
      = some (KwVal.vStr "m2") :=
  (c3_amended_merge_order "gpt-4" (some 0.4) (some 4000) (some "low")
    (some (dictSet dictEmpty "model" (KwVal.vStr "m2")))).1 (KwVal.vStr "m2") rfl

/-- Claim C6, counterexample: for the reasoning-family identifier o1-mini
with a caller extra parameter temperature, the shaped parameters do
contain a temperature entry — the merge of llm.py line 57 happens before
the branch of lines 60-64, and the reasoning branch never removes the
caller's temperature — so the claimed absence of temperature on reasoning
models fails. -/
theorem c6_counterexample_reasoning_temperature :
    (buildKwargs "o1-mini" (some 0.4) (some 4000) (some "low")
      (some (dictSet dictEmpty "temperature" (KwVal.vNum 0.9)))) "temperature"
      = some (KwVal.vNum 0.9)
    ∧ reasoningModel "o1-mini" = true
    ∧ (create_chat_completion (fun _ _ => 0) (Except.ok "hi") "m" (some "o1-mini") (some 0.4)
      (some 4000) (some "p") (some (dictSet dictEmpty "temperature" (KwVal.vNum 0.9)))
      false (some "low")).shapedKwargs
      = some (buildKwargs "o1-mini" (some 0.4) (some 4000) (some "low")
        (some (dictSet dictEmpty "temperature" (KwVal.vNum 0.9)))) :=
  ⟨rfl, by decide, rfl⟩

/-- Claim C6 as amended: provided the caller's extra parameters bind none
of temperature, max_tokens and reasoning_effort, the shaped parameters of
create_chat_completion satisfy the claimed classification — an identifier
containing o1 or o3 yields a reasoning_effort entry (the reasoning_effort
argument, whose Python default is low) and no temperature or max_tokens
entry, and any other identifier yields temperature (default 0.4) and
max_tokens (default 4000) entries and no reasoning_effort entry. -/
theorem c6_amended_classification (model : String) (temp : Option ℚ) (mt : Option Int)
    (re : Option String) (lk : Option Dict)
    (ht : (lk.getD dictEmpty) "temperature" = none)
    (hm : (lk.getD dictEmpty) "max_tokens" = none)
    (hre : (lk.getD dictEmpty) "reasoning_effort" = none) :
    (reasoningModel model = true →
      (buildKwargs model temp mt re lk) "reasoning_effort" = some (optStr re)
      ∧ (buildKwargs model temp mt re lk) "temperature" = none
      ∧ (buildKwargs model temp mt re lk) "max_tokens" = none)
    ∧ (reasoningModel model = false →
      (buildKwargs model temp mt re lk) "temperature" = some (optNum temp)
      ∧ (buildKwargs model temp mt re lk) "max_tokens" = some (optInt mt)
      ∧ (buildKwargs model temp mt re lk) "reasoning_effort" = none) := by
  constructor <;> intro hr <;>
    simp [buildKwargs, hr, dictSet, dictUnion, dictEmpty, ht, hm, hre]

/-- Witness for the amended C6 at the concrete inputs o1-mini and gpt-4
with no extra parameters and the Python default argument values. -/
theorem c6_amended_classification_witness :
    ((buildKwargs "o1-mini" (some 0.4) (some 4000) (some "low") none) "reasoning_effort"
      = some (optStr (some "low"))
    ∧ (buildKwargs "o1-mini" (some 0.4) (some 4000) (some "low") none) "temperature" = none)
    ∧ ((buildKwargs "gpt-4" (some 0.4) (some 4000) (some "low") none) "temperature"
      = some (optNum (some 0.4))
    ∧ (buildKwargs "gpt-4" (some 0.4) (some 4000) (some "low") none) "reasoning_effort"
      = none) :=
  ⟨⟨((c6_amended_classification "o1-mini" (some 0.4) (some 4000) (some "low") none
      rfl rfl rfl).1 (by decide)).1,
    ((c6_amended_classification "o1-mini" (some 0.4) (some 4000) (some "low") none
      rfl rfl rfl).1 (by decide)).2.1⟩,
   ⟨((c6_amended_classification "gpt-4" (some 0.4) (some 4000) (some "low") none
      rfl rfl rfl).2 (by decide)).1,
    ((c6_amended_classification "gpt-4" (some 0.4) (some 4000) (some "low") none
      rfl rfl rfl).2 (by decide)).2.2⟩⟩

/-- Claim C9: the max-token validation of llm.py lines 50-52 runs before
the model-family branch of lines 60-64, so a reasoning-family identifier
together with a max_tokens value that trips the guard (the source's guard
fires for values above 16001; see the C1 theorem for the off-by-one
against the stated 16000 bound) is rejected with the ValidationError, the
provider is never invoked and no kwargs dict is built — even though the
reasoning branch of the shaping writes no max_tokens entry at all. -/
theorem c9_validation_before_classification (est : String → String → ℚ)
    (pr : Except String String) (msgs : String) (s : String) (temp : Option ℚ)
    (mt : Int) (lp : Option String) (lk : Option Dict) (cb : Bool) (re : Option String)
    (hs : reasoningModel s = true) (hmt : mt > 16001) :
    (create_chat_completion est pr msgs (some s) temp (some mt) lp lk cb re).result
      = Except.error (CCError.validation
          ("Max tokens cannot be more than 16,000, but got " ++ toString mt))
    ∧ (create_chat_completion est pr msgs (some s) temp (some mt) lp lk cb re).providerCalls = 0
    ∧ (create_chat_completion est pr msgs (some s) temp (some mt) lp lk cb re).shapedKwargs = none
    ∧ (buildKwargs s temp (some mt) re none) "max_tokens" = none := by
  refine ⟨?_, ?_, ?_, ?_⟩
  · simp [create_chat_completion, hmt]
  · simp [create_chat_completion, hmt]
  · simp [create_chat_completion, hmt]
  · simp [buildKwargs, hs, dictSet, dictUnion, dictEmpty]

/-- Witness for C9 at the concrete input o1-mini with max_tokens 20000. -/
theorem c9_validation_before_classification_witness :
    reasoningModel "o1-mini" = true ∧ (20000 : Int) > 16001
    ∧ (create_chat_completion (fun _ _ => 0) (Except.ok "hi") "m" (some "o1-mini") (some 0.4)
      (some 20000) (some "p") none false (some "low")).result
      = Except.error (CCError.validation
          ("Max tokens cannot be more than 16,000, but got " ++ toString (20000 : Int))) :=
  ⟨by decide, by decide,
    (c9_validation_before_classification (fun _ _ => 0) (Except.ok "hi") "m" "o1-mini"
      (some 0.4) 20000 (some "p") none false (some "low") (by decide) (by decide)).1⟩

/-- Claim C7: cost accounting of llm.py lines 74-78. On a successful
completion with a cost callback supplied, the callback receives exactly
one value, the estimate computed from str(messages) and the response, and
it does so before the return (line 76 precedes line 78); on any failure
— validation or a provider exception — the callback is never invoked; and
without a callback no estimation occurs. The cost log records the callback
invocations in order. -/
theorem c7_cost_callback_once (est : String → String → ℚ) (pr : Except String String)
    (msgs : String) (model : Option String) (temp : Option ℚ) (mt : Option Int)
    (lp : Option String) (lk : Option Dict) (cb : Bool) (re : Option String) :
    (∀ r, (create_chat_completion est pr msgs model temp mt lp lk cb re).result = Except.ok r →
      (create_chat_completion est pr msgs model temp mt lp lk cb re).costLog
        = if cb then [est msgs r] else [])
    ∧ (∀ e, (create_chat_completion est pr msgs model temp mt lp lk cb re).result
        = Except.error e →
      (create_chat_completion est pr msgs model temp mt lp lk cb re).costLog = [])
    ∧ (cb = false →
      (create_chat_completion est pr msgs model temp mt lp lk cb re).costLog = []) := by
  cases model with
  | none =>
    exact ⟨fun r hr => Except.noConfusion hr, fun e he => rfl, fun hcb => rfl⟩
  | some m =>
    cases mt with
    | none =>
      cases pr with
      | error e2 =>
        exact ⟨fun r hr => Except.noConfusion hr, fun e he => rfl, fun hcb => rfl⟩
      | ok r0 =>
        refine ⟨fun r hr => ?_, fun e he => Except.noConfusion he, fun hcb => by cases hcb; rfl⟩
        cases Except.ok.inj hr
        rfl
    | some n =>
      by_cases hn : n > 16001
      · refine ⟨fun r hr => ?_, fun e he => ?_, fun hcb => ?_⟩
        · exfalso
          simp [create_chat_completion, hn] at hr
        · simp [create_chat_completion, hn]
        · simp [create_chat_completion, hn]
      · cases pr with
        | error e2 =>
          refine ⟨fun r hr => ?_, fun e he => ?_, fun hcb => ?_⟩
          · exfalso
            simp [create_chat_completion, ccAttemptLoop, hn] at hr
          · simp [create_chat_completion, ccAttemptLoop, hn]
          · simp [create_chat_completion, ccAttemptLoop, hn]
        | ok r0 =>
          refine ⟨fun r hr => ?_, fun e he => ?_, fun hcb => ?_⟩
          · simp [create_chat_completion, ccAttemptLoop, hn] at hr ⊢
            rw [hr]
          · exfalso
            simp [create_chat_completion, ccAttemptLoop, hn] at he
          · cases hcb
            simp [create_chat_completion, ccAttemptLoop, hn]

/-- Witness for C7 at a concrete successful request with a callback: the
log holds the single estimated cost. -/
theorem c7_cost_callback_once_witness :
    (create_chat_completion (fun _ _ => (5 : ℚ)) (Except.ok "hi") "m" (some "gpt-4")
      (some 0.4) (some 4000) (some "p") none true (some "low")).costLog = [5] :=
  (c7_cost_callback_once (fun _ _ => (5 : ℚ)) (Except.ok "hi") "m" (some "gpt-4")
    (some 0.4) (some 4000) (some "p") none true (some "low")).1 "hi" rfl

/-- Claim C4, counterexample: construct_subtopics returns the parsed chain
output unchanged (llm.py line 132) — there is no truncation step — so a
successful run whose parsed output holds two subtopics against a
configured maximum of one returns a list longer than the maximum. -/
theorem c4_counterexample_no_truncation :
    ((construct_subtopics (Except.ok ()) (fun _ => Except.ok ())
      (fun _ => Except.ok [Subtopic.mk "a", Subtopic.mk "b"]) "task" "data"
      ⟨"gpt-4", some "openai", none, 0.4, 4000, 1⟩ []).1).length
    > (⟨"gpt-4", some "openai", none, 0.4, 4000, 1⟩ : SubtopicsConfig).max_subtopics := by
  decide

/-- Claim C4 as amended: on every successful run construct_subtopics
returns the parsed output exactly as the chain produced it, with no
truncation or length validation against config.max_subtopics — the
maximum only enters the chain's input dict (and hence the prompt), so the
returned list's length exceeds the maximum whenever the parsed output
does. -/
theorem c4_amended_output_unchanged (pc : Except String Unit)
    (rp : Dict → Except String Unit) (ci : ChainInputs → Except String (List Subtopic))
    (task data : String) (config : SubtopicsConfig) (subs out : List Subtopic)
    (hpc : pc = Except.ok ()) (hrp : rp (subtopicsKwargs config) = Except.ok ())
    (hci : ci ⟨task, data, subs, config.max_subtopics⟩ = Except.ok out) :
    (construct_subtopics pc rp ci task data config subs).1 = out := by
  subst hpc
  simp [construct_subtopics, subtopicsBody, hrp, hci]

/-- Witness for the amended C4 at a concrete input: the chain's parsed
output is returned as is. -/
theorem c4_amended_output_unchanged_witness :
    (construct_subtopics (Except.ok ()) (fun _ => Except.ok ())
      (fun _ => Except.ok [Subtopic.mk "a"]) "t" "d"
      ⟨"gpt-4", some "openai", none, 0.4, 4000, 5⟩ []).1 = [Subtopic.mk "a"] :=
  c4_amended_output_unchanged (Except.ok ()) (fun _ => Except.ok ())
    (fun _ => Except.ok [Subtopic.mk "a"]) "t" "d"
    ⟨"gpt-4", some "openai", none, 0.4, 4000, 5⟩ [] [Subtopic.mk "a"] rfl rfl rfl

/-- Claim C5: the graceful-degradation contract of llm.py lines 97-136.
Whenever any step of the try block fails — prompt composition, provider
resolution, or the chain invocation that parses the response — the call
returns exactly the caller-supplied subtopics argument; and since the
except branch converts every exception into this normal return, the
embedding is a total function into List Subtopic with no error channel,
so no failure ever reaches the caller. -/
theorem c5_fallback_returns_existing (pc : Except String Unit)
    (rp : Dict → Except String Unit) (ci : ChainInputs → Except String (List Subtopic))
    (task data : String) (config : SubtopicsConfig) (subs : List Subtopic)
    (h : (∃ e, pc = Except.error e)
      ∨ (∃ e, rp (subtopicsKwargs config) = Except.error e)
      ∨ (∃ e, ci ⟨task, data, subs, config.max_subtopics⟩ = Except.error e)) :
    (construct_subtopics pc rp ci task data config subs).1 = subs := by
  obtain ⟨e, he⟩ := subtopicsBody_error_of_step pc rp ci task data config subs h
  simp [construct_subtopics, he]

/-- Witness for C5 at a concrete input whose chain invocation always fails
parsing: the existing subtopics come back unchanged. -/
theorem c5_fallback_returns_existing_witness :
    (construct_subtopics (Except.ok ()) (fun _ => Except.ok ())
      (fun _ => Except.error "malformed output") "t" "d"
      ⟨"gpt-4", some "openai", none, 0.4, 4000, 3⟩ [Subtopic.mk "s1"]).1
      = [Subtopic.mk "s1"] :=
  c5_fallback_returns_existing (Except.ok ()) (fun _ => Except.ok ())
    (fun _ => Except.error "malformed output") "t" "d"
    ⟨"gpt-4", some "openai", none, 0.4, 4000, 3⟩ [Subtopic.mk "s1"]
    (Or.inr (Or.inr ⟨"malformed output", rfl⟩))

/-- Claim C10: construct_subtopics never mutates the caller's subtopics
list — the second component of the embedding, the contents of the list
object after the call, always equals the contents before the call (the
source only reads the list, at lines 128 and 136) — and on the fallback
path the value returned is that same list. -/
theorem c10_no_mutation (pc : Except String Unit)
    (rp : Dict → Except String Unit) (ci : ChainInputs → Except String (List Subtopic))
    (task data : String) (config : SubtopicsConfig) (subs : List Subtopic) :
    (construct_subtopics pc rp ci task data config subs).2 = subs
    ∧ (((∃ e, pc = Except.error e)
      ∨ (∃ e, rp (subtopicsKwargs config) = Except.error e)
      ∨ (∃ e, ci ⟨task, data, subs, config.max_subtopics⟩ = Except.error e)) →
      (construct_subtopics pc rp ci task data config subs).1
        = (construct_subtopics pc rp ci task data config subs).2) := by
  constructor
  · exact construct_subtopics_snd pc rp ci task data config subs
  · intro h
    obtain ⟨e, he⟩ := subtopicsBody_error_of_step pc rp ci task data config subs h
    simp [construct_subtopics, he]

/-- Witness for C10 at a concrete fallen-back call: the list state is
preserved and the returned value coincides with it. -/
theorem c10_no_mutation_witness :
    (construct_subtopics (Except.error "compose failed") (fun _ => Except.ok ())
      (fun _ => Except.ok []) "t" "d" ⟨"m", none, none, 0.4, 4000, 2⟩
      [Subtopic.mk "s"]).2 = [Subtopic.mk "s"]
    ∧ (construct_subtopics (Except.error "compose failed") (fun _ => Except.ok ())
      (fun _ => Except.ok []) "t" "d" ⟨"m", none, none, 0.4, 4000, 2⟩
      [Subtopic.mk "s"]).1
      = (construct_subtopics (Except.error "compose failed") (fun _ => Except.ok ())
      (fun _ => Except.ok []) "t" "d" ⟨"m", none, none, 0.4, 4000, 2⟩
      [Subtopic.mk "s"]).2 :=
  ⟨(c10_no_mutation (Except.error "compose failed") (fun _ => Except.ok ())
      (fun _ => Except.ok []) "t" "d" ⟨"m", none, none, 0.4, 4000, 2⟩
      [Subtopic.mk "s"]).1,
   (c10_no_mutation (Except.error "compose failed") (fun _ => Except.ok ())
      (fun _ => Except.ok []) "t" "d" ⟨"m", none, none, 0.4, 4000, 2⟩
      [Subtopic.mk "s"]).2 (Or.inl ⟨"compose failed", rfl⟩)⟩
